import Mathlib

/-!
# Verification of the player controller (`src/objects/Player.ts`)

Shallow embedding of the player-character controller of the game
"shining-soul-j".  The embedded state holds exactly the fields the verified
properties are about: hit points, the behavioural state machine
(`PlayerState`), the per-state elapsed-time counter, the physics-body
velocity, the sprite / weapon horizontal flips, the immovable flag and the
animation selection.  Engine-collaborator effects with no bearing on these
fields (sprite frames, audio playback, camera math, the weapon's rotation)
are noted where they occur in the source but not modelled.

Velocities: the source stores velocities as engine floating-point vectors,
but every value it ever produces lies in the ring ℚ[√2] (the diagonal
branches run `setVelocity(±1, ±1)` followed by `normalize().scale(64)`,
yielding components `±64/√2 = ±32·√2`; all other branches produce rational
components).  We therefore embed velocity components exactly as pairs
`a + b·√2` with `a b : ℚ`, which keeps every definition computable while
matching the real-number semantics of the source exactly.
-/

/-- An element `a + b·√2` of ℚ[√2].  Used for velocity components, which the
source code manipulates with exact values in this ring. -/
structure Q2 where
  a : ℚ
  b : ℚ
deriving DecidableEq, Repr

namespace Q2

/-- The rational constant `q`, embedded as `q + 0·√2`. -/
def ofRat (q : ℚ) : Q2 := ⟨q, 0⟩

/-- Addition in ℚ[√2]. -/
def add (x y : Q2) : Q2 := ⟨x.a + y.a, x.b + y.b⟩

/-- Multiplication in ℚ[√2]: `(a + b√2)(c + d√2) = (ac + 2bd) + (ad + bc)√2`. -/
def mul (x y : Q2) : Q2 := ⟨x.a * y.a + 2 * x.b * y.b, x.a * y.b + x.b * y.a⟩

/-- Decides `0 < a + b·√2` over the reals: if `a` and `b` do not disagree in
sign this is immediate, otherwise it reduces to comparing `a²` with `2·b²`. -/
def pos (x : Q2) : Bool :=
  if 0 < x.a then
    if 0 ≤ x.b then true else decide (2 * x.b ^ 2 < x.a ^ 2)
  else
    if 0 < x.b then decide (x.a ^ 2 < 2 * x.b ^ 2) else false

/-- Decides `a + b·√2 < 0` over the reals, as positivity of the negation. -/
def isNeg (x : Q2) : Bool := pos ⟨-x.a, -x.b⟩

/-- The real number denoted by `a + b·√2`; bridge used to justify that the
exact representation agrees with the source's real-valued arithmetic. -/
noncomputable def toReal (x : Q2) : ℝ := (x.a : ℝ) + (x.b : ℝ) * Real.sqrt 2

end Q2

/-- A 2-D velocity vector, components in ℚ[√2] (first = x, second = y). -/
abbrev Vel := Q2 × Q2

/-- `PlayerState` enum from the source (`Default`, `Talking`,
`FinishTalking`). -/
inductive PlayerState
  | Default
  | Talking
  | FinishTalking
deriving DecidableEq, Repr

/-- The per-tick directional input snapshot: the `isDown` flags of the
W / A / S / D keys read by `Player.update`. -/
structure Input where
  keyW : Bool
  keyA : Bool
  keyS : Bool
  keyD : Bool
deriving DecidableEq, Repr

/-- The input snapshot with no key held. -/
def noKeys : Input := ⟨false, false, false, false⟩

/-- Animation selections made by `Player.update` (idle / run animation key). -/
inductive AnimKey
  | Idle
  | Run
deriving DecidableEq, Repr

/-- Events emitted through the `EventDispatcher` by `Player.receiveDamage`.
The `Damage` event additionally carries a screen-space position and a color
derived from external camera state, omitted here as engine-external; the
damage amount itself is kept. -/
inductive Event
  | PlayerDies
  | Damage (amount : Int)
  | PlayerHpChange (currentHitPoints : Int)
deriving DecidableEq, Repr

/-- The modelled state of the `Player` object: the fields of the source class
that the verified properties observe.  `flipX` is the sprite's horizontal
flip (`false` = facing right, `true` = facing left); `weaponFlipX` is the
held weapon's flip; `anim` is the animation most recently selected by
`update` (`none` before the first tick); `immovable` is the physics body's
immovable flag. -/
structure Player where
  hitPoints : Int
  currentState : PlayerState
  elapsedTime : ℚ
  velocity : Vel
  flipX : Bool
  weaponFlipX : Bool
  immovable : Bool
  anim : Option AnimKey
deriving DecidableEq, Repr

namespace Player

/-- `Player.MAX_HIT_POINTS = 8`. -/
def MAX_HIT_POINTS : Int := 8

/-- `Player.MOVE_SPEED = 64`. -/
def MOVE_SPEED : ℚ := 64

/-- The player as built by the constructor: full hit points, `Default`
state, zero elapsed time; the physics body starts at rest, the sprite and
weapon start unflipped, the body starts movable and no animation has been
played yet. -/
def initPlayer : Player :=
  { hitPoints := MAX_HIT_POINTS
    currentState := PlayerState.Default
    elapsedTime := 0
    velocity := (Q2.ofRat 0, Q2.ofRat 0)
    flipX := false
    weaponFlipX := false
    immovable := false
    anim := none }

/-- `this.getBody().setVelocity(x, y); this.getBody().velocity.normalize()
.scale(s)` specialised to the diagonal vectors `(x, y)` with components in
`{-1, 1}` built by the movement code: such a vector has length `√2`, so each
component becomes `c·s/√2 = (c·s/2)·√2`. -/
def normalizeScaleDiag (s x y : ℚ) : Vel :=
  (⟨0, x * s / 2⟩, ⟨0, y * s / 2⟩)

/-- `Player.receiveDamage(damage)` (source lines 140–169): clamps hit points
at 0, emits `PlayerDies` when the new hit-point value is exactly 0, then
emits `Damage` and finally `PlayerHpChange`, in this order.  The hit-frame
flash and the damage sound are engine-external effects, not modelled.
Returns the new state together with the emitted events in emission order. -/
def receiveDamage (damage : Int) (p : Player) : Player × List Event :=
  let hp := max 0 (p.hitPoints - damage)
  let p1 := { p with hitPoints := hp }
  let deathEvents := if hp = 0 then [Event.PlayerDies] else []
  (p1, deathEvents ++ [Event.Damage damage, Event.PlayerHpChange hp])

/-- The `currentState === PlayerState.Default` branch of `Player.update`
(source lines 177–220): the eight-way if/else ladder over the four key
flags, diagonals first, each diagonal normalized and scaled to
`MOVE_SPEED`. -/
def updateVelocityDefault (input : Input) (p : Player) : Player :=
  if input.keyW && input.keyA then
    { p with velocity := normalizeScaleDiag MOVE_SPEED (-1) (-1) }
  else if input.keyS && input.keyA then
    { p with velocity := normalizeScaleDiag MOVE_SPEED (-1) 1 }
  else if input.keyS && input.keyD then
    { p with velocity := normalizeScaleDiag MOVE_SPEED 1 1 }
  else if input.keyW && input.keyD then
    { p with velocity := normalizeScaleDiag MOVE_SPEED 1 (-1) }
  else if input.keyW then
    { p with velocity := (Q2.ofRat 0, Q2.ofRat (-MOVE_SPEED)) }
  else if input.keyA then
    { p with velocity := (Q2.ofRat (-MOVE_SPEED), Q2.ofRat 0) }
  else if input.keyS then
    { p with velocity := (Q2.ofRat 0, Q2.ofRat MOVE_SPEED) }
  else if input.keyD then
    { p with velocity := (Q2.ofRat MOVE_SPEED, Q2.ofRat 0) }
  else
    { p with velocity := (Q2.ofRat 0, Q2.ofRat 0) }

/-- The "update flip x" block of `Player.update` (source lines 233–243):
positive horizontal velocity unflips sprite and weapon, negative flips both,
zero leaves both unchanged. -/
def updateFlip (p : Player) : Player :=
  if Q2.pos p.velocity.1 then
    { p with flipX := false, weaponFlipX := false }
  else if Q2.isNeg p.velocity.1 then
    { p with flipX := true, weaponFlipX := true }
  else p

/-- The "update frame and physics body" block of `Player.update` (source
lines 245–255): a velocity of exactly `(0, 0)` selects the idle animation
and makes the body immovable, any other velocity selects the run animation
and makes it movable. -/
def updateFrameBody (p : Player) : Player :=
  if p.velocity.1 = Q2.ofRat 0 ∧ p.velocity.2 = Q2.ofRat 0 then
    { p with anim := some AnimKey.Idle, immovable := true }
  else
    { p with anim := some AnimKey.Run, immovable := false }

/-- The state dispatch at the top of `Player.update` (source lines
177–231): in `Default` run the movement ladder; in `Talking` force velocity
to `(0, 0)`; in `FinishTalking` transition to `Default` once
`elapsedTime > 200`, touching neither velocity nor the timer. -/
def stateUpdate (input : Input) (p : Player) : Player :=
  if p.currentState = PlayerState.Default then
    updateVelocityDefault input p
  else if p.currentState = PlayerState.Talking then
    { p with velocity := (Q2.ofRat 0, Q2.ofRat 0) }
  else if p.currentState = PlayerState.FinishTalking then
    if p.elapsedTime > 200 then { p with currentState := PlayerState.Default }
    else p
  else p

/-- `Player.update(delta)` (source lines 174–261): the state dispatch, then
the flip resolution, then the animation / immovable pair, and finally
`elapsedTime += delta`.  The call `weapon.update(this, attackEnabled)`
rotates the weapon, which touches none of the modelled fields. -/
def update (delta : ℚ) (input : Input) (p : Player) : Player :=
  let p1 := stateUpdate input p
  let p2 := updateFlip p1
  let p3 := updateFrameBody p2
  { p3 with elapsedTime := p3.elapsedTime + delta }

/-- `Player.setCurrentState(state)` (source lines 345–349): store the state
and reset the elapsed-time counter. -/
def setCurrentState (state : PlayerState) (p : Player) : Player :=
  { p with currentState := state, elapsedTime := 0 }

/-- One invocation of a public mutating operation of the player controller. -/
inductive Step : Player → Player → Prop
  | update (delta : ℚ) (input : Input) (p : Player) :
      Step p (update delta input p)
  | damage (amount : Int) (p : Player) :
      Step p (receiveDamage amount p).1
  | setState (s : PlayerState) (p : Player) :
      Step p (setCurrentState s p)

/-- States reachable from the freshly constructed player through the public
operations. -/
inductive Reachable : Player → Prop
  | init : Reachable initPlayer
  | step {p q : Player} : Reachable p → Step p q → Reachable q

end Player

/-- `true` iff at least one directional key is held in the snapshot. -/
def anyKeyDown (i : Input) : Bool := i.keyW || i.keyA || i.keyS || i.keyD

/-- The squared Euclidean magnitude of a velocity vector, computed exactly
in ℚ[√2]. -/
def sqMag (v : Vel) : Q2 := (v.1.mul v.1).add (v.2.mul v.2)

/-- A player put into the `Talking` state straight after construction. -/
def talkingPlayer : Player :=
  Player.setCurrentState PlayerState.Talking Player.initPlayer

/-- A player put into the `FinishTalking` state straight after
construction. -/
def finishTalkPlayer : Player :=
  Player.setCurrentState PlayerState.FinishTalking Player.initPlayer

/-- A player that just ran one tick holding only the D (right) key: its
body moves right at `MOVE_SPEED`. -/
def runningPlayer : Player :=
  Player.update 16 ⟨false, false, false, true⟩ Player.initPlayer

section SanityChecks

example : (Player.receiveDamage 3 Player.initPlayer).1.hitPoints = 5 := by decide

example :
    (Player.update 16 ⟨true, true, false, false⟩ Player.initPlayer).velocity =
      (⟨0, -32⟩, ⟨0, -32⟩) := by
  norm_num [Player.update, Player.stateUpdate, Player.updateVelocityDefault,
    Player.normalizeScaleDiag, Player.updateFlip, Player.updateFrameBody,
    Player.initPlayer, Q2.ofRat, Q2.pos, Q2.isNeg, Player.MOVE_SPEED]

example :
    (Player.update 16 ⟨true, false, true, false⟩ Player.initPlayer).velocity =
      (Q2.ofRat 0, Q2.ofRat (-64)) := by
  norm_num [Player.update, Player.stateUpdate, Player.updateVelocityDefault,
    Player.normalizeScaleDiag, Player.updateFlip, Player.updateFrameBody,
    Player.initPlayer, Q2.ofRat, Q2.pos, Q2.isNeg, Player.MOVE_SPEED]

end SanityChecks

/-! ## Bridging lemmas: the exact ℚ[√2] sign tests agree with the reals

These lemmas justify that `Q2.pos` / `Q2.isNeg` decide exactly the real
comparisons `0 < a + b·√2` / `a + b·√2 < 0` that the source performs on its
velocity components. -/

theorem Q2.toReal_mk (a b : ℚ) :
    Q2.toReal ⟨a, b⟩ = (a : ℝ) + (b : ℝ) * Real.sqrt 2 := rfl

theorem Q2.pos_iff (x : Q2) : Q2.pos x = true ↔ 0 < x.toReal := by
  rcases x with ⟨a, b⟩
  have hsq : Real.sqrt 2 ^ 2 = 2 := Real.sq_sqrt (by norm_num)
  have hs : 0 < Real.sqrt 2 := Real.sqrt_pos.mpr (by norm_num)
  rw [Q2.toReal_mk]
  simp only [Q2.pos]
  split_ifs with ha hb hbpos
  · -- `0 < a` and `0 ≤ b`
    have ha' : (0 : ℝ) < a := by exact_mod_cast ha
    have hb' : (0 : ℝ) ≤ b := by exact_mod_cast hb
    simp only [true_iff]
    nlinarith [mul_nonneg hb' hs.le]
  · -- `0 < a` and `b < 0`: positivity is `2b² < a²`
    have ha' : (0 : ℝ) < a := by exact_mod_cast ha
    have hb' : (b : ℝ) < 0 := by exact_mod_cast not_le.mp hb
    have key : ((a : ℝ) + b * Real.sqrt 2) * ((a : ℝ) - b * Real.sqrt 2) =
        (a : ℝ) ^ 2 - 2 * (b : ℝ) ^ 2 := by
      have expand : ((a : ℝ) + b * Real.sqrt 2) * ((a : ℝ) - b * Real.sqrt 2) =
          (a : ℝ) ^ 2 - (b : ℝ) ^ 2 * Real.sqrt 2 ^ 2 := by ring
      rw [expand, hsq]; ring
    have hfac : 0 < (a : ℝ) - b * Real.sqrt 2 := by nlinarith [mul_pos (neg_pos.mpr hb') hs]
    rw [decide_eq_true_eq]
    constructor
    · intro h
      have h' : 2 * (b : ℝ) ^ 2 < (a : ℝ) ^ 2 := by exact_mod_cast h
      nlinarith [key, hfac]
    · intro h
      have h' : 2 * (b : ℝ) ^ 2 < (a : ℝ) ^ 2 := by nlinarith [key, mul_pos h hfac]
      exact_mod_cast h'
  · -- `a ≤ 0` and `0 < b`: positivity is `a² < 2b²`
    have ha' : (a : ℝ) ≤ 0 := by exact_mod_cast not_lt.mp ha
    have hb' : (0 : ℝ) < b := by exact_mod_cast hbpos
    have key : ((a : ℝ) + b * Real.sqrt 2) * ((b : ℝ) * Real.sqrt 2 - a) =
        2 * (b : ℝ) ^ 2 - (a : ℝ) ^ 2 := by
      have expand : ((a : ℝ) + b * Real.sqrt 2) * ((b : ℝ) * Real.sqrt 2 - a) =
          (b : ℝ) ^ 2 * Real.sqrt 2 ^ 2 - (a : ℝ) ^ 2 := by ring
      rw [expand, hsq]; ring
    have hfac : 0 < (b : ℝ) * Real.sqrt 2 - a := by nlinarith [mul_pos hb' hs]
    rw [decide_eq_true_eq]
    constructor
    · intro h
      have h' : (a : ℝ) ^ 2 < 2 * (b : ℝ) ^ 2 := by exact_mod_cast h
      nlinarith [key, hfac]
    · intro h
      have h' : (a : ℝ) ^ 2 < 2 * (b : ℝ) ^ 2 := by nlinarith [key, mul_pos h hfac]
      exact_mod_cast h'
  · -- `a ≤ 0` and `b ≤ 0`
    have ha' : (a : ℝ) ≤ 0 := by exact_mod_cast not_lt.mp ha
    have hb' : (b : ℝ) ≤ 0 := by exact_mod_cast not_lt.mp hbpos
    simp only [false_iff, not_lt]
    nlinarith [mul_nonneg (neg_nonneg.mpr hb') hs.le]

theorem Q2.toReal_neg (x : Q2) :
    Q2.toReal ⟨-x.a, -x.b⟩ = -Q2.toReal x := by
  rcases x with ⟨a, b⟩
  rw [Q2.toReal_mk, Q2.toReal_mk]
  push_cast
  ring

theorem Q2.isNeg_iff (x : Q2) : Q2.isNeg x = true ↔ x.toReal < 0 := by
  rw [Q2.isNeg, Q2.pos_iff, Q2.toReal_neg]
  constructor <;> intro h <;> linarith

theorem Q2.pos_isNeg_exclusive (x : Q2) (h : Q2.isNeg x = true) :
    Q2.pos x = false := by
  rw [Q2.isNeg_iff] at h
  rw [Bool.eq_false_iff]
  intro hp
  rw [Q2.pos_iff] at hp
  linarith

theorem Q2.toReal_eq_zero_iff (x : Q2) : x.toReal = 0 ↔ x = ⟨0, 0⟩ := by
  rcases x with ⟨a, b⟩
  rw [Q2.toReal_mk]
  constructor
  · intro h
    by_cases hb : b = 0
    · subst hb
      simp only [Rat.cast_zero, zero_mul, add_zero] at h
      have : a = 0 := by exact_mod_cast h
      simp [this]
    · exfalso
      have hb' : (b : ℝ) ≠ 0 := by exact_mod_cast hb
      have : Real.sqrt 2 = ((-a / b : ℚ) : ℝ) := by
        push_cast
        field_simp
        linarith
      exact irrational_sqrt_two ⟨-a / b, this.symm⟩
  · intro h
    injection h with h1 h2
    subst h1
    subst h2
    norm_num

/-! ## Structural lemmas about the update phases -/

namespace Player

@[simp] theorem currentState_updateVelocityDefault (input : Input) (p : Player) :
    (updateVelocityDefault input p).currentState = p.currentState := by
  unfold updateVelocityDefault
  split_ifs <;> rfl

@[simp] theorem elapsedTime_updateVelocityDefault (input : Input) (p : Player) :
    (updateVelocityDefault input p).elapsedTime = p.elapsedTime := by
  unfold updateVelocityDefault
  split_ifs <;> rfl

@[simp] theorem flipX_updateVelocityDefault (input : Input) (p : Player) :
    (updateVelocityDefault input p).flipX = p.flipX := by
  unfold updateVelocityDefault
  split_ifs <;> rfl

@[simp] theorem weaponFlipX_updateVelocityDefault (input : Input) (p : Player) :
    (updateVelocityDefault input p).weaponFlipX = p.weaponFlipX := by
  unfold updateVelocityDefault
  split_ifs <;> rfl

@[simp] theorem velocity_updateFlip (p : Player) :
    (updateFlip p).velocity = p.velocity := by
  unfold updateFlip
  split_ifs <;> rfl

@[simp] theorem currentState_updateFlip (p : Player) :
    (updateFlip p).currentState = p.currentState := by
  unfold updateFlip
  split_ifs <;> rfl

@[simp] theorem elapsedTime_updateFlip (p : Player) :
    (updateFlip p).elapsedTime = p.elapsedTime := by
  unfold updateFlip
  split_ifs <;> rfl

@[simp] theorem velocity_updateFrameBody (p : Player) :
    (updateFrameBody p).velocity = p.velocity := by
  unfold updateFrameBody
  split_ifs <;> rfl

@[simp] theorem currentState_updateFrameBody (p : Player) :
    (updateFrameBody p).currentState = p.currentState := by
  unfold updateFrameBody
  split_ifs <;> rfl

@[simp] theorem elapsedTime_updateFrameBody (p : Player) :
    (updateFrameBody p).elapsedTime = p.elapsedTime := by
  unfold updateFrameBody
  split_ifs <;> rfl

@[simp] theorem flipX_updateFrameBody (p : Player) :
    (updateFrameBody p).flipX = p.flipX := by
  unfold updateFrameBody
  split_ifs <;> rfl

@[simp] theorem weaponFlipX_updateFrameBody (p : Player) :
    (updateFrameBody p).weaponFlipX = p.weaponFlipX := by
  unfold updateFrameBody
  split_ifs <;> rfl

@[simp] theorem elapsedTime_stateUpdate (input : Input) (p : Player) :
    (stateUpdate input p).elapsedTime = p.elapsedTime := by
  unfold stateUpdate
  split_ifs <;> simp

@[simp] theorem flipX_stateUpdate (input : Input) (p : Player) :
    (stateUpdate input p).flipX = p.flipX := by
  unfold stateUpdate
  split_ifs <;> simp

@[simp] theorem weaponFlipX_stateUpdate (input : Input) (p : Player) :
    (stateUpdate input p).weaponFlipX = p.weaponFlipX := by
  unfold stateUpdate
  split_ifs <;> simp

theorem currentState_stateUpdate (input : Input) (p : Player) :
    (stateUpdate input p).currentState =
      if p.currentState = PlayerState.FinishTalking ∧ 200 < p.elapsedTime
      then PlayerState.Default else p.currentState := by
  unfold stateUpdate
  rcases h : p.currentState
  · simp [h]
  · simp [h]
  · simp [h]
    split_ifs <;> simp_all

theorem velocity_update (delta : ℚ) (input : Input) (p : Player) :
    (update delta input p).velocity = (stateUpdate input p).velocity := by
  simp [update]

theorem currentState_update (delta : ℚ) (input : Input) (p : Player) :
    (update delta input p).currentState = (stateUpdate input p).currentState := by
  simp [update]

theorem elapsedTime_update (delta : ℚ) (input : Input) (p : Player) :
    (update delta input p).elapsedTime = p.elapsedTime + delta := by
  simp [update]

theorem flipX_update (delta : ℚ) (input : Input) (p : Player) :
    (update delta input p).flipX = (updateFlip (stateUpdate input p)).flipX := by
  simp [update]

theorem weaponFlipX_update (delta : ℚ) (input : Input) (p : Player) :
    (update delta input p).weaponFlipX =
      (updateFlip (stateUpdate input p)).weaponFlipX := by
  simp [update]

theorem anim_update (delta : ℚ) (input : Input) (p : Player) :
    (update delta input p).anim =
      (updateFrameBody (updateFlip (stateUpdate input p))).anim := by
  simp [update]

theorem immovable_update (delta : ℚ) (input : Input) (p : Player) :
    (update delta input p).immovable =
      (updateFrameBody (updateFlip (stateUpdate input p))).immovable := by
  simp [update]

theorem velocity_stateUpdate_default (input : Input) (p : Player)
    (h : p.currentState = PlayerState.Default) :
    (stateUpdate input p).velocity = (updateVelocityDefault input p).velocity := by
  simp [stateUpdate, h]

theorem velocity_stateUpdate_talking (input : Input) (p : Player)
    (h : p.currentState = PlayerState.Talking) :
    (stateUpdate input p).velocity = (Q2.ofRat 0, Q2.ofRat 0) := by
  simp [stateUpdate, h]

theorem velocity_stateUpdate_finishTalking (input : Input) (p : Player)
    (h : p.currentState = PlayerState.FinishTalking) :
    (stateUpdate input p).velocity = p.velocity := by
  unfold stateUpdate
  rw [h]
  split_ifs <;> simp_all

end Player

namespace Player

@[simp] theorem hitPoints_receiveDamage (d : Int) (p : Player) :
    (receiveDamage d p).1.hitPoints = max 0 (p.hitPoints - d) := rfl

theorem events_receiveDamage (d : Int) (p : Player) :
    (receiveDamage d p).2 =
      (if max 0 (p.hitPoints - d) = 0 then [Event.PlayerDies] else []) ++
        [Event.Damage d, Event.PlayerHpChange (max 0 (p.hitPoints - d))] := rfl

@[simp] theorem currentState_receiveDamage (d : Int) (p : Player) :
    (receiveDamage d p).1.currentState = p.currentState := rfl

end Player

/-! ## The claims -/

/-- C1: `receiveDamage(d)` with non-negative `d` sets `hitPoints` to
`max(0, h - d)`; the result is never negative and, from any non-negative
starting value, is monotonically non-increasing. -/
theorem receiveDamage_clamp_spec (p : Player) (d : Int) (hd : 0 ≤ d) :
    (Player.receiveDamage d p).1.hitPoints = max 0 (p.hitPoints - d) ∧
    0 ≤ (Player.receiveDamage d p).1.hitPoints ∧
    (0 ≤ p.hitPoints →
      (Player.receiveDamage d p).1.hitPoints ≤ p.hitPoints) := by
  refine ⟨rfl, ?_, fun h0 => ?_⟩ <;>
    (simp only [Player.hitPoints_receiveDamage]; omega)

/-- Witness for C1 at `d = 3` from the freshly constructed player. -/
theorem receiveDamage_clamp_spec_witness :
    (0 : Int) ≤ 3 ∧
    ((Player.receiveDamage 3 Player.initPlayer).1.hitPoints =
        max 0 (Player.initPlayer.hitPoints - 3) ∧
      0 ≤ (Player.receiveDamage 3 Player.initPlayer).1.hitPoints ∧
      (0 ≤ Player.initPlayer.hitPoints →
        (Player.receiveDamage 3 Player.initPlayer).1.hitPoints ≤
          Player.initPlayer.hitPoints)) :=
  ⟨by decide, receiveDamage_clamp_spec Player.initPlayer 3 (by decide)⟩

/-- C2 counterexample: `PlayerDies` is NOT emitted only once per downward
crossing.  Dropping the fresh player to 0 emits `PlayerDies`, and a further
`receiveDamage(1)` while hit points are already 0 emits `PlayerDies`
again, because the source re-checks `hitPoints === 0` on every call. -/
theorem playerDies_repeat_cex :
    (Player.receiveDamage 8 Player.initPlayer).1.hitPoints = 0 ∧
    Event.PlayerDies ∈ (Player.receiveDamage 8 Player.initPlayer).2 ∧
    Event.PlayerDies ∈
      (Player.receiveDamage 1 (Player.receiveDamage 8 Player.initPlayer).1).2 := by
  decide

/-- C2 (amended): every `receiveDamage` call that leaves `hitPoints` at
exactly 0 emits a `PlayerDies` event — including repeated calls while
already at 0 — and calls leaving positive hit points never emit it. -/
theorem playerDies_iff_zero (d : Int) (p : Player) :
    Event.PlayerDies ∈ (Player.receiveDamage d p).2 ↔
      (Player.receiveDamage d p).1.hitPoints = 0 := by
  rw [Player.events_receiveDamage, Player.hitPoints_receiveDamage]
  by_cases h : max 0 (p.hitPoints - d) = 0 <;> simp [h]

/-- C6 counterexample: in the spec's own scenario (8 HP, damage 3, then
damage 5) the fatal call emits `PlayerDies` FIRST (index 0) and
`PlayerHpChange{0}` LAST (index 2), not `PlayerHpChange` before
`PlayerDies` as claimed. -/
theorem death_order_cex :
    (Player.receiveDamage 5 (Player.receiveDamage 3 Player.initPlayer).1).2 =
      [Event.PlayerDies, Event.Damage 5, Event.PlayerHpChange 0] ∧
    List.indexOf Event.PlayerDies
      (Player.receiveDamage 5 (Player.receiveDamage 3 Player.initPlayer).1).2 = 0 ∧
    List.indexOf (Event.PlayerHpChange 0)
      (Player.receiveDamage 5 (Player.receiveDamage 3 Player.initPlayer).1).2 = 2 := by
  decide

/-- C6 (amended): starting from `hitPoints = 8`, `receiveDamage(3)` leaves
5 HP and emits `Damage{3}` then `PlayerHpChange{5}` with no `PlayerDies`;
the following `receiveDamage(5)` leaves 0 HP and emits `PlayerDies`, then
`Damage{5}`, then `PlayerHpChange{0}` — i.e. the death event precedes the
hit-point-change event. -/
theorem death_scenario_spec :
    (Player.receiveDamage 3 Player.initPlayer).1.hitPoints = 5 ∧
    (Player.receiveDamage 3 Player.initPlayer).2 =
      [Event.Damage 3, Event.PlayerHpChange 5] ∧
    (Player.receiveDamage 5 (Player.receiveDamage 3 Player.initPlayer).1).1.hitPoints
      = 0 ∧
    (Player.receiveDamage 5 (Player.receiveDamage 3 Player.initPlayer).1).2 =
      [Event.PlayerDies, Event.Damage 5, Event.PlayerHpChange 0] := by
  decide

/-- C10: `receiveDamage` never validates its argument: a negative amount
`d` with `h - d ≥ 0` sets `hitPoints` to `h - d`, a strict increase, and a
concrete negative call pushes hit points above `MAX_HIT_POINTS`; the
`0 ≤ hitPoints ≤ maxHitPoints` invariant is preserved when every damage
amount is non-negative. -/
theorem receiveDamage_negative_overheal (p : Player) (d : Int) :
    (d < 0 → 0 ≤ p.hitPoints - d →
      (Player.receiveDamage d p).1.hitPoints = p.hitPoints - d ∧
      p.hitPoints < (Player.receiveDamage d p).1.hitPoints) ∧
    Player.MAX_HIT_POINTS <
      (Player.receiveDamage (-1) Player.initPlayer).1.hitPoints ∧
    (0 ≤ d → 0 ≤ p.hitPoints → p.hitPoints ≤ Player.MAX_HIT_POINTS →
      0 ≤ (Player.receiveDamage d p).1.hitPoints ∧
      (Player.receiveDamage d p).1.hitPoints ≤ Player.MAX_HIT_POINTS) := by
  simp only [Player.hitPoints_receiveDamage]
  refine ⟨fun hd hge => ?_, by decide, fun hd h0 hmax => ?_⟩ <;>
    constructor <;> omega

/-- Witness for C10 at `d = -1` from the freshly constructed player. -/
theorem receiveDamage_negative_overheal_witness :
    (-1 : Int) < 0 ∧ 0 ≤ Player.initPlayer.hitPoints - (-1) ∧
    (Player.receiveDamage (-1) Player.initPlayer).1.hitPoints =
      Player.initPlayer.hitPoints - (-1) ∧
    Player.initPlayer.hitPoints <
      (Player.receiveDamage (-1) Player.initPlayer).1.hitPoints :=
  ⟨by decide, by decide,
    ((receiveDamage_negative_overheal Player.initPlayer (-1)).1
      (by decide) (by decide)).1,
    ((receiveDamage_negative_overheal Player.initPlayer (-1)).1
      (by decide) (by decide)).2⟩

/-- C9: `setCurrentState` always stores the requested state and resets
`elapsedTime` to 0, including redundant sets; and it is the only operation
that can put the controller into `Talking` or `FinishTalking` — `update`
only ever leaves those states and `receiveDamage` never changes state. -/
theorem setCurrentState_spec :
    (∀ (s : PlayerState) (p : Player),
      (Player.setCurrentState s p).currentState = s ∧
      (Player.setCurrentState s p).elapsedTime = 0) ∧
    (∀ (delta : ℚ) (input : Input) (p : Player),
      ((Player.update delta input p).currentState = PlayerState.Talking →
        p.currentState = PlayerState.Talking) ∧
      ((Player.update delta input p).currentState = PlayerState.FinishTalking →
        p.currentState = PlayerState.FinishTalking)) ∧
    (∀ (d : Int) (p : Player),
      (Player.receiveDamage d p).1.currentState = p.currentState) := by
  refine ⟨fun s p => ⟨rfl, rfl⟩, fun delta input p => ⟨?_, ?_⟩, fun d p => rfl⟩
  · intro h
    rw [Player.currentState_update, Player.currentState_stateUpdate] at h
    split_ifs at h with hc
    exact h
  · intro h
    rw [Player.currentState_update, Player.currentState_stateUpdate] at h
    split_ifs at h with hc
    exact h

/-- Witness for C9: a concrete `update` tick that ends in `Talking` indeed
started in `Talking`, and a concrete `setCurrentState` call reset the
timer. -/
theorem setCurrentState_spec_witness :
    (Player.update 16 noKeys talkingPlayer).currentState = PlayerState.Talking ∧
    talkingPlayer.currentState = PlayerState.Talking ∧
    (Player.setCurrentState PlayerState.FinishTalking Player.initPlayer).elapsedTime
      = 0 := by
  have heval :
      (Player.update 16 noKeys talkingPlayer).currentState = PlayerState.Talking := by
    rw [Player.currentState_update, Player.currentState_stateUpdate]
    norm_num [talkingPlayer, Player.setCurrentState]
  exact ⟨heval, (setCurrentState_spec.2.1 16 noKeys talkingPlayer).1 heval,
    (setCurrentState_spec.1 PlayerState.FinishTalking Player.initPlayer).2⟩

/-- C3 counterexample: enter `FinishTalking` from a running state (public
API only: one `update` holding D, then `setCurrentState(FinishTalking)`);
the next `update` leaves the velocity at `(MOVE_SPEED, 0) ≠ (0, 0)`,
because the `FinishTalking` branch of `update` never touches velocity. -/
theorem finishTalking_velocity_cex :
    (Player.setCurrentState PlayerState.FinishTalking runningPlayer).currentState =
      PlayerState.FinishTalking ∧
    (Player.update 16 noKeys
        (Player.setCurrentState PlayerState.FinishTalking runningPlayer)).velocity =
      (Q2.ofRat Player.MOVE_SPEED, Q2.ofRat 0) ∧
    Q2.ofRat Player.MOVE_SPEED ≠ Q2.ofRat 0 := by
  refine ⟨rfl, ?_, by decide⟩
  rw [Player.velocity_update, Player.velocity_stateUpdate_finishTalking _ _ rfl]
  show runningPlayer.velocity = _
  unfold runningPlayer
  rw [Player.velocity_update, Player.velocity_stateUpdate_default _ _ rfl]
  norm_num [Player.updateVelocityDefault]

/-- C3 (amended): a tick in `Talking` forces the velocity to `(0, 0)`
whatever the inputs and the prior velocity; a tick in `FinishTalking`
leaves the velocity exactly as it was (so it is `(0, 0)` only if it
already was). -/
theorem talking_finishTalking_velocity (delta : ℚ) (input : Input) (p : Player) :
    (p.currentState = PlayerState.Talking →
      (Player.update delta input p).velocity = (Q2.ofRat 0, Q2.ofRat 0)) ∧
    (p.currentState = PlayerState.FinishTalking →
      (Player.update delta input p).velocity = p.velocity) := by
  constructor
  · intro h
    rw [Player.velocity_update, Player.velocity_stateUpdate_talking _ _ h]
  · intro h
    rw [Player.velocity_update, Player.velocity_stateUpdate_finishTalking _ _ h]

/-- Witness for C3 (amended): a `Talking` tick with both W and A held
still ends at velocity `(0, 0)`. -/
theorem talking_finishTalking_velocity_witness :
    talkingPlayer.currentState = PlayerState.Talking ∧
    (Player.update 16 ⟨true, true, false, false⟩ talkingPlayer).velocity =
      (Q2.ofRat 0, Q2.ofRat 0) :=
  ⟨rfl, (talking_finishTalking_velocity 16 ⟨true, true, false, false⟩
    talkingPlayer).1 rfl⟩

/-- C4 counterexample: after `setCurrentState(FinishTalking)`, two updates
of 200 ms each (accumulated 200 ms, then 400 ms — both ≥ 200 ms) still
leave the state at `FinishTalking`, because the source checks the strict
`elapsedTime > 200` with the PREVIOUS ticks' accumulation; and when the
transition finally fires the timer is NOT reset (it reads 401 ≠ 0). -/
theorem finishTalking_threshold_cex :
    (Player.update 200 noKeys finishTalkPlayer).elapsedTime = 200 ∧
    (Player.update 200 noKeys finishTalkPlayer).currentState =
      PlayerState.FinishTalking ∧
    (Player.update 200 noKeys (Player.update 200 noKeys
        finishTalkPlayer)).currentState = PlayerState.FinishTalking ∧
    (Player.update 200 noKeys (Player.update 200 noKeys
        finishTalkPlayer)).elapsedTime = 400 ∧
    (Player.update 1 noKeys (Player.update 200 noKeys (Player.update 200 noKeys
        finishTalkPlayer))).currentState = PlayerState.Default ∧
    (Player.update 1 noKeys (Player.update 200 noKeys (Player.update 200 noKeys
        finishTalkPlayer))).elapsedTime = 401 ∧
    (401 : ℚ) ≠ 0 := by
  have c0 : finishTalkPlayer.currentState = PlayerState.FinishTalking := rfl
  have e0 : finishTalkPlayer.elapsedTime = 0 := rfl
  have e1 : (Player.update 200 noKeys finishTalkPlayer).elapsedTime = 200 := by
    rw [Player.elapsedTime_update, e0]; norm_num
  have c1 : (Player.update 200 noKeys finishTalkPlayer).currentState =
      PlayerState.FinishTalking := by
    rw [Player.currentState_update, Player.currentState_stateUpdate, c0, e0]
    norm_num
  have e2 : (Player.update 200 noKeys (Player.update 200 noKeys
      finishTalkPlayer)).elapsedTime = 400 := by
    rw [Player.elapsedTime_update, e1]; norm_num
  have c2 : (Player.update 200 noKeys (Player.update 200 noKeys
      finishTalkPlayer)).currentState = PlayerState.FinishTalking := by
    rw [Player.currentState_update, Player.currentState_stateUpdate, c1, e1]
    norm_num
  have c3 : (Player.update 1 noKeys (Player.update 200 noKeys (Player.update 200
      noKeys finishTalkPlayer))).currentState = PlayerState.Default := by
    rw [Player.currentState_update, Player.currentState_stateUpdate, c2, e2]
    norm_num
  have e3 : (Player.update 1 noKeys (Player.update 200 noKeys (Player.update 200
      noKeys finishTalkPlayer))).elapsedTime = 401 := by
    rw [Player.elapsedTime_update, e2]; norm_num
  exact ⟨e1, c1, c2, e2, c3, e3, by norm_num⟩

/-- C4 (amended): from `FinishTalking`, a tick transitions to `Default`
exactly when the elapsed time accumulated BEFORE the tick strictly exceeds
200 ms, and every tick adds its delta to the timer — the transition itself
never resets it (only `setCurrentState` does). -/
theorem finishTalking_transition_rule (delta : ℚ) (input : Input) (p : Player)
    (h : p.currentState = PlayerState.FinishTalking) :
    ((Player.update delta input p).currentState =
      if 200 < p.elapsedTime then PlayerState.Default
      else PlayerState.FinishTalking) ∧
    (Player.update delta input p).elapsedTime = p.elapsedTime + delta := by
  constructor
  · rw [Player.currentState_update, Player.currentState_stateUpdate, h]
    simp
  · exact Player.elapsedTime_update delta input p

/-- Witness for C4 (amended) on the tick right after entering
`FinishTalking`. -/
theorem finishTalking_transition_rule_witness :
    finishTalkPlayer.currentState = PlayerState.FinishTalking ∧
    (Player.update 16 noKeys finishTalkPlayer).currentState =
      (if 200 < finishTalkPlayer.elapsedTime then PlayerState.Default
       else PlayerState.FinishTalking) ∧
    (Player.update 16 noKeys finishTalkPlayer).elapsedTime =
      finishTalkPlayer.elapsedTime + 16 :=
  ⟨rfl, (finishTalking_transition_rule 16 noKeys finishTalkPlayer rfl).1,
    (finishTalking_transition_rule 16 noKeys finishTalkPlayer rfl).2⟩

/-- C5 counterexample: holding the opposing pair up+down (W and S) does
NOT cancel to zero — the if/else ladder reaches the `keyW` case first and
the player moves straight up at `MOVE_SPEED`. -/
theorem opposing_keys_cex :
    Player.initPlayer.currentState = PlayerState.Default ∧
    (Player.update 16 ⟨true, false, true, false⟩ Player.initPlayer).velocity =
      (Q2.ofRat 0, Q2.ofRat (-Player.MOVE_SPEED)) ∧
    Q2.ofRat (-Player.MOVE_SPEED) ≠ Q2.ofRat 0 := by
  refine ⟨rfl, ?_, by decide⟩
  rw [Player.velocity_update, Player.velocity_stateUpdate_default _ _ rfl]
  norm_num [Player.updateVelocityDefault]

/-- C5 (amended): in the `Default` state the key flags are resolved by a
fixed priority ladder (diagonals W+A, S+A, S+D, W+D first, then W, A, S, D
singly, else rest); opposing keys do not cancel — e.g. whenever W is held
without A or D the velocity is straight up even if S is also held, and
whenever A is held without W or S it is straight left even if D is also
held.  Each diagonal is normalized to magnitude `MOVE_SPEED` and each
single key gives an axis-aligned vector of magnitude `MOVE_SPEED`, so the
squared velocity magnitude is `MOVE_SPEED²` whenever any flag is set and 0
when none is. -/
theorem movement_ladder_spec (delta : ℚ) (input : Input) (p : Player)
    (h : p.currentState = PlayerState.Default) :
    (anyKeyDown input = true →
      sqMag (Player.update delta input p).velocity =
        Q2.ofRat (Player.MOVE_SPEED * Player.MOVE_SPEED)) ∧
    (anyKeyDown input = false →
      (Player.update delta input p).velocity = (Q2.ofRat 0, Q2.ofRat 0)) ∧
    (input.keyW = true → input.keyA = false → input.keyD = false →
      (Player.update delta input p).velocity =
        (Q2.ofRat 0, Q2.ofRat (-Player.MOVE_SPEED))) ∧
    (input.keyA = true → input.keyW = false → input.keyS = false →
      (Player.update delta input p).velocity =
        (Q2.ofRat (-Player.MOVE_SPEED), Q2.ofRat 0)) := by
  rw [Player.velocity_update, Player.velocity_stateUpdate_default _ _ h]
  rcases input with ⟨w, a, s, d⟩
  cases w <;> cases a <;> cases s <;> cases d <;>
    simp [Player.updateVelocityDefault, anyKeyDown, sqMag, Q2.mul, Q2.add,
      Q2.ofRat, Player.normalizeScaleDiag, Player.MOVE_SPEED] <;> norm_num

/-- Witness for C5 (amended): the up-left diagonal from the fresh player
has squared magnitude exactly `MOVE_SPEED²`. -/
theorem movement_ladder_spec_witness :
    Player.initPlayer.currentState = PlayerState.Default ∧
    anyKeyDown ⟨true, true, false, false⟩ = true ∧
    sqMag (Player.update 16 ⟨true, true, false, false⟩ Player.initPlayer).velocity =
      Q2.ofRat (Player.MOVE_SPEED * Player.MOVE_SPEED) :=
  ⟨rfl, rfl,
    (movement_ladder_spec 16 ⟨true, true, false, false⟩ Player.initPlayer rfl).1 rfl⟩

/-- The flip block in isolation: positive horizontal velocity clears both
flips, negative sets both, and a sign-less horizontal velocity leaves both
unchanged. -/
theorem updateFlip_flips (q : Player) :
    (Q2.pos q.velocity.1 = true →
      (Player.updateFlip q).flipX = false ∧
      (Player.updateFlip q).weaponFlipX = false) ∧
    (Q2.isNeg q.velocity.1 = true →
      (Player.updateFlip q).flipX = true ∧
      (Player.updateFlip q).weaponFlipX = true) ∧
    (Q2.pos q.velocity.1 = false → Q2.isNeg q.velocity.1 = false →
      (Player.updateFlip q).flipX = q.flipX ∧
      (Player.updateFlip q).weaponFlipX = q.weaponFlipX) := by
  by_cases hp : Q2.pos q.velocity.1 = true
  · by_cases hn : Q2.isNeg q.velocity.1 = true
    · exact absurd hp (by simp [Q2.pos_isNeg_exclusive _ hn])
    · simp [Player.updateFlip, hp, hn]
  · by_cases hn : Q2.isNeg q.velocity.1 = true
    · simp [Player.updateFlip, hp, hn]
    · simp [Player.updateFlip, hp, hn]

/-- One `update` tick preserves equality of the sprite and weapon flips:
every branch of the flip block either writes both or touches neither. -/
theorem update_preserves_flip_eq (delta : ℚ) (input : Input) (r : Player)
    (h : r.flipX = r.weaponFlipX) :
    (Player.update delta input r).flipX =
      (Player.update delta input r).weaponFlipX := by
  rw [Player.flipX_update, Player.weaponFlipX_update]
  obtain ⟨h1, h2, h3⟩ := updateFlip_flips (Player.stateUpdate input r)
  by_cases hp : Q2.pos (Player.stateUpdate input r).velocity.1 = true
  · obtain ⟨hx, hw⟩ := h1 hp
    rw [hx, hw]
  · by_cases hn : Q2.isNeg (Player.stateUpdate input r).velocity.1 = true
    · obtain ⟨hx, hw⟩ := h2 hn
      rw [hx, hw]
    · obtain ⟨hx, hw⟩ := h3 (by simpa using hp) (by simpa using hn)
      rw [hx, hw, Player.flipX_stateUpdate, Player.weaponFlipX_stateUpdate]
      exact h

/-- C7: every tick sets facing from the sign of the resolved horizontal
velocity (positive → right/unflipped, negative → left/flipped, zero →
unchanged), always moving sprite and weapon flips together; consequently,
in every state reachable through the public operations the weapon's flip
equals the player's flip. -/
theorem facing_weapon_mirror :
    (∀ (delta : ℚ) (input : Input) (p : Player),
      (Q2.pos (Player.update delta input p).velocity.1 = true →
        (Player.update delta input p).flipX = false ∧
        (Player.update delta input p).weaponFlipX = false) ∧
      (Q2.isNeg (Player.update delta input p).velocity.1 = true →
        (Player.update delta input p).flipX = true ∧
        (Player.update delta input p).weaponFlipX = true) ∧
      (Q2.pos (Player.update delta input p).velocity.1 = false →
        Q2.isNeg (Player.update delta input p).velocity.1 = false →
        (Player.update delta input p).flipX = p.flipX ∧
        (Player.update delta input p).weaponFlipX = p.weaponFlipX)) ∧
    (∀ p : Player, Player.Reachable p → p.flipX = p.weaponFlipX) := by
  have hflip := updateFlip_flips
  constructor
  · intro delta input p
    rw [Player.velocity_update, Player.flipX_update, Player.weaponFlipX_update]
    obtain ⟨h1, h2, h3⟩ := hflip (Player.stateUpdate input p)
    refine ⟨h1, h2, fun ha hb => ?_⟩
    obtain ⟨hx, hw⟩ := h3 ha hb
    rw [hx, hw, Player.flipX_stateUpdate, Player.weaponFlipX_stateUpdate]
    exact ⟨rfl, rfl⟩
  · intro p hr
    induction hr with
    | init => rfl
    | step hr hstep ih =>
      cases hstep with
      | update delta input r => exact update_preserves_flip_eq _ _ _ ih
      | damage amount r => exact ih
      | setState s r => exact ih

/-- Witness for C7: one tick holding D makes the horizontal velocity
positive and leaves both the player and the weapon unflipped; the fresh
player is reachable and has matching flips. -/
theorem facing_weapon_mirror_witness :
    Q2.pos (Player.update 16 ⟨false, false, false, true⟩
      Player.initPlayer).velocity.1 = true ∧
    (Player.update 16 ⟨false, false, false, true⟩ Player.initPlayer).flipX
      = false ∧
    (Player.update 16 ⟨false, false, false, true⟩ Player.initPlayer).weaponFlipX
      = false ∧
    Player.initPlayer.flipX = Player.initPlayer.weaponFlipX := by
  have hpos : Q2.pos (Player.update 16 ⟨false, false, false, true⟩
      Player.initPlayer).velocity.1 = true := by
    rw [Player.velocity_update, Player.velocity_stateUpdate_default _ _ rfl]
    norm_num [Player.updateVelocityDefault, Q2.pos, Q2.ofRat, Player.MOVE_SPEED]
  obtain ⟨hx, hw⟩ :=
    (facing_weapon_mirror.1 16 ⟨false, false, false, true⟩ Player.initPlayer).1 hpos
  exact ⟨hpos, hx, hw, facing_weapon_mirror.2 Player.initPlayer Player.Reachable.init⟩

/-- The frame/body block in isolation: a velocity of `(0, 0)` on both axes
selects the idle animation and a solid body, anything else the run
animation and a movable body. -/
theorem updateFrameBody_cases (q : Player) :
    (q.velocity = (Q2.ofRat 0, Q2.ofRat 0) →
      (Player.updateFrameBody q).anim = some AnimKey.Idle ∧
      (Player.updateFrameBody q).immovable = true) ∧
    (q.velocity ≠ (Q2.ofRat 0, Q2.ofRat 0) →
      (Player.updateFrameBody q).anim = some AnimKey.Run ∧
      (Player.updateFrameBody q).immovable = false) := by
  unfold Player.updateFrameBody
  by_cases hz : q.velocity.1 = Q2.ofRat 0 ∧ q.velocity.2 = Q2.ofRat 0
  · constructor
    · intro _
      simp [hz]
    · intro hne
      exfalso
      apply hne
      rw [Prod.ext_iff]
      exact hz
  · constructor
    · intro heq
      exfalso
      apply hz
      rw [heq]
      exact ⟨rfl, rfl⟩
    · intro _
      simp [hz]

/-- C8: after every tick the animation selection and the immovable flag
agree on the exact zero-velocity boundary: a resolved velocity of `(0, 0)`
gives the idle animation and an immovable (solid) body, any other velocity
gives the run animation and a movable body. -/
theorem idle_run_immovable_spec (delta : ℚ) (input : Input) (p : Player) :
    ((Player.update delta input p).velocity = (Q2.ofRat 0, Q2.ofRat 0) →
      (Player.update delta input p).anim = some AnimKey.Idle ∧
      (Player.update delta input p).immovable = true) ∧
    ((Player.update delta input p).velocity ≠ (Q2.ofRat 0, Q2.ofRat 0) →
      (Player.update delta input p).anim = some AnimKey.Run ∧
      (Player.update delta input p).immovable = false) := by
  have hs := updateFrameBody_cases (Player.updateFlip (Player.stateUpdate input p))
  rw [Player.anim_update, Player.immovable_update, Player.velocity_update,
    show (Player.stateUpdate input p).velocity =
        (Player.updateFlip (Player.stateUpdate input p)).velocity from
      (Player.velocity_updateFlip _).symm]
  exact hs

/-- Witness for C8: an idle tick from the fresh player ends with velocity
`(0, 0)`, the idle animation and a solid body. -/
theorem idle_run_immovable_spec_witness :
    (Player.update 16 noKeys Player.initPlayer).velocity =
      (Q2.ofRat 0, Q2.ofRat 0) ∧
    (Player.update 16 noKeys Player.initPlayer).anim = some AnimKey.Idle ∧
    (Player.update 16 noKeys Player.initPlayer).immovable = true := by
  have hv : (Player.update 16 noKeys Player.initPlayer).velocity =
      (Q2.ofRat 0, Q2.ofRat 0) := by
    rw [Player.velocity_update, Player.velocity_stateUpdate_default _ _ rfl]
    norm_num [Player.updateVelocityDefault, noKeys]
  obtain ⟨ha, hi⟩ := (idle_run_immovable_spec 16 noKeys Player.initPlayer).1 hv
  exact ⟨hv, ha, hi⟩
